import Mathlib

/-!
Verification of the saliweb backend job-lifecycle engine
(`saliweb/backend/__init__.py`) against its specification.

The Python source is shallowly embedded: pure state-machine logic becomes
Lean functions, stateful methods become explicit state passing, raised
exceptions become `Except`/error values, and the filesystem is a finite set
of directory paths.  Wall-clock times and time deltas are exact rationals
measured in seconds (idealizing binary floating point, which is exact on
every value any claim mentions).  Fallible external effects that the code
merely invokes (the database UPDATE at the end of a transition) are
modelled by an explicit `Option BackendError` oracle saying whether that
write raises.  On a raised exception the partially mutated in-memory state
is discarded, since no property examined here observes it.
-/

namespace Saliweb

/-- The eight job states of `_JobState.__valid_states`. -/
inductive JState where
  | INCOMING
  | PREPROCESSING
  | RUNNING
  | POSTPROCESSING
  | COMPLETED
  | FAILED
  | EXPIRED
  | ARCHIVED
deriving DecidableEq, Repr, Fintype

/-- The string name of a job state, as stored in the database. -/
def stateName : JState → String
  | .INCOMING => "INCOMING"
  | .PREPROCESSING => "PREPROCESSING"
  | .RUNNING => "RUNNING"
  | .POSTPROCESSING => "POSTPROCESSING"
  | .COMPLETED => "COMPLETED"
  | .FAILED => "FAILED"
  | .EXPIRED => "EXPIRED"
  | .ARCHIVED => "ARCHIVED"

/-- `_JobState.__valid_transitions`: the legal-transition table. -/
def validTransitions : List (JState × JState) :=
  [(.INCOMING, .PREPROCESSING),
   (.PREPROCESSING, .RUNNING),
   (.PREPROCESSING, .COMPLETED),
   (.RUNNING, .POSTPROCESSING),
   (.POSTPROCESSING, .COMPLETED),
   (.POSTPROCESSING, .RUNNING),
   (.COMPLETED, .ARCHIVED),
   (.ARCHIVED, .EXPIRED),
   (.FAILED, .INCOMING)]

/-- The exception classes raised by the backend (plus the Python builtins
`ValueError`, `OverflowError` and `TypeError` that its code can raise),
each carrying its message text. -/
inductive BackendError where
  | invalidState (msg : String)
  | runnerError (msg : String)
  | sanityError (msg : String)
  | configError (msg : String)
  | valueError (msg : String)
  | overflowError (msg : String)
  | typeError (msg : String)
deriving DecidableEq, Repr

deriving instance DecidableEq for Except

/-- True when an error value is an `InvalidStateError`. -/
def isInvalidStateErr : Option BackendError → Bool
  | some (.invalidState _) => true
  | _ => false

/-- `_JobState.transition`: change state to `t`.  Returns the held state
after the call together with the raised exception, if any: on success the
held state becomes `t`; on failure an `InvalidStateError` is raised and the
held state is unchanged. -/
def JState.transition (s t : JState) : JState × Option BackendError :=
  if t = .FAILED ∨ (s, t) ∈ validTransitions then
    (t, none)
  else
    (s, some (.invalidState
      ("Cannot transition from " ++ stateName s ++ " to " ++ stateName t)))

/-- Python `str(x)` for a nullable string (`None` prints as `"None"`). -/
def pyStrOpt : Option String → String
  | none => "None"
  | some s => s

/-- Python truthiness of a nullable string (`None` and `""` are falsy). -/
def pyTruthy : Option String → Bool
  | none => false
  | some s => ¬ s = ""

/-- The job metadata row (`_JobMetadata`), excluding the `state` column,
restricted to the fields the verified properties mention.  Timestamps are
rational seconds since an arbitrary epoch. -/
structure JobMetadata where
  name : String
  contact_email : Option String
  url : String
  directory : Option String
  end_time : Option ℚ
  archive_time : Option ℚ
  expire_time : Option ℚ
  runner_id : Option String
  failure : Option String
deriving DecidableEq, Repr

/-- The configuration fields the verified properties mention.
`directories` is `Config.directories` (one path per state); the `oldjobs`
deltas are in seconds, `none` meaning `NEVER`. -/
structure Config where
  directories : JState → String
  oldjobs_archive : Option ℚ
  oldjobs_expire : Option ℚ
  admin_email : String
  service_name : String

/-- One email handed to the mailer. -/
structure Email where
  recipient : String
  subject : String
  body : String
deriving DecidableEq, Repr

/-- Whether the first character list is an initial segment of the
second. -/
def leadMatch : List Char → List Char → Bool
  | [], _ => true
  | _ :: _, [] => false
  | p :: ps, c :: cs => if p = c then leadMatch ps cs else false

/-- Python `s.startswith(pre)`. -/
def strBegins (s pre : String) : Bool := leadMatch pre.data s.data

/-- Python `s.endswith(suf)`. -/
def strEnds (s suf : String) : Bool :=
  leadMatch suf.data.reverse s.data.reverse

/-- Python `s.upper()` (ASCII). -/
def strUpper (s : String) : String := String.mk (s.data.map Char.toUpper)

/-- Python `s.split("/")` on a character list (`acc` holds the current
component reversed). -/
def splitSlashAux : List Char → List Char → List String
  | [], acc => [String.mk acc.reverse]
  | c :: rest, acc =>
    if c = '/' then String.mk acc.reverse :: splitSlashAux rest []
    else splitSlashAux rest (c :: acc)

/-- Python `s.split("/")`. -/
def splitSlash (s : String) : List String := splitSlashAux s.data []

/-- Model of POSIX `os.path.join` on two arguments. -/
def pyJoin (a b : String) : String :=
  if strBegins b "/" then b
  else if a = "" ∨ strEnds a "/" then a ++ b
  else a ++ "/" ++ b

/-- One step of the `normpath` component loop (`new_comps` is kept
reversed; Python appends, pops, and inspects the last element). -/
def normStep (initialSlashes : ℕ) (acc : List String) (comp : String) :
    List String :=
  if comp = "" ∨ comp = "." then acc
  else if ¬ comp = ".." ∨ (initialSlashes = 0 ∧ acc = []) ∨ acc.headI = ".." then
    comp :: acc
  else acc.tail

/-- Model of POSIX `os.path.normpath` (Python 2 `posixpath.normpath`). -/
def normpath (p : String) : String :=
  if p = "" then "."
  else
    let initialSlashes : ℕ :=
      if strBegins p "//" = true ∧ ¬ strBegins p "///" = true then 2
      else if strBegins p "/" then 1 else 0
    let comps := splitSlash p
    let newComps := (comps.foldl (normStep initialSlashes) []).reverse
    let path := String.mk (List.replicate initialSlashes '/') ++
      String.intercalate "/" newComps
    if path = "" then "." else path

/-- The directory side effects of `Job.__internal_set_state` once the state
transition itself has succeeded: on `EXPIRED` the job directory is
recursively deleted (`shutil.rmtree`) and the `directory` field cleared
(`rmtree` of a null directory raises `TypeError`); otherwise, when the
`directory` field is non-null and the target state has a different
configured directory, the directory is renamed on disk (`shutil.move`) and
the field updated. -/
def dirStep (cfg : Config) (m : JobMetadata) (fs : Finset String)
    (t : JState) : Except BackendError (JobMetadata × Finset String) :=
  if t = .EXPIRED then
    match m.directory with
    | none => .error (.typeError "coercing to Unicode: need string, got NoneType")
    | some d => .ok ({m with directory := none}, fs.erase d)
  else
    match m.directory with
    | none => .ok (m, fs)
    | some d =>
      let target := normpath (pyJoin (cfg.directories t) m.name)
      if target = d then .ok (m, fs)
      else .ok ({m with directory := some target}, insert target (fs.erase d))

/-- `Job.__internal_set_state`: run the state transition, perform the
directory operations, then write the row (`Database._change_job_state`,
whose outcome is the `dbWrite` oracle). -/
def internal_set_state (cfg : Config) (dbWrite : Option BackendError)
    (m : JobMetadata) (fs : Finset String) (s t : JState) :
    Except BackendError (JobMetadata × Finset String × JState) :=
  match (JState.transition s t).2 with
  | some e => .error e
  | none =>
    match dirStep cfg m fs t with
    | .error e => .error e
    | .ok (m2, fs2) =>
      match dbWrite with
      | some e => .error e
      | none => .ok (m2, fs2, t)

/-- Subject of the admin email sent by `Job._fail`. -/
def failSubject (cfg : Config) (m : JobMetadata) : String :=
  "Sali lab " ++ cfg.service_name ++ " service: Job " ++ m.name ++ " FAILED"

/-- Body of the admin email sent by `Job._fail`. -/
def failBody (m : JobMetadata) (reason : String) : String :=
  "Job " ++ m.name ++ " failed with the following error:\n" ++ reason

/-- `Job._fail`: record the formatted traceback in `metadata.failure`,
force a transition to `FAILED`, and send an admin email.  If anything in
that sequence raises, the escaping exception is annotated with the
original failure text (`detail.original_error`, the second component of
the error pair) and re-raised. -/
def job_fail (cfg : Config) (dbWrite : Option BackendError) (m : JobMetadata)
    (fs : Finset String) (s : JState) (tracebackText : String) :
    Except (BackendError × String)
      (JobMetadata × Finset String × JState × List Email) :=
  match internal_set_state cfg dbWrite
      {m with failure := some ("Python exception:\n" ++ tracebackText)}
      fs s .FAILED with
  | .error e => .error (e, "Python exception:\n" ++ tracebackText)
  | .ok (m2, fs2, st) =>
    .ok (m2, fs2, st,
      [⟨cfg.admin_email, failSubject cfg m,
        failBody m ("Python exception:\n" ++ tracebackText)⟩])

/-- The state-file content written by `WebService._handle_fatal_error`:
`FAILED:` plus the traceback, with the original failure appended when the
escaping exception carries `original_error`. -/
def handleFatalErrorStateFile (err : String) (originalError : Option String) :
    String :=
  match originalError with
  | some orig => "FAILED: " ++ err ++
      "\n\nThis error in turn occurred while trying to handle the original error below:\n"
      ++ orig
  | none => "FAILED: " ++ err

/-- The `SanityError` message raised by `Job._sanity_check` for a job found
in a transient state. -/
def sanityMsg (name : String) (s : JState) : String :=
  "Job " ++ name ++ " is in state " ++ stateName s ++
    "; this should not be possible unless the web service were shut down uncleanly"

/-- One job as the daemon sees it: its metadata row, the set of directories
on disk, and its state. -/
structure JobRec where
  meta : JobMetadata
  fs : Finset String
  state : JState
deriving DecidableEq

/-- `Job._sanity_check`: a job found in a transient state raises a
`SanityError`, which the method itself catches and routes to `Job._fail`;
a `_fail` escalation propagates. -/
def job_sanity_check (cfg : Config) (dbWrite : Option BackendError)
    (j : JobRec) :
    Except (BackendError × String) (JobRec × List Email) :=
  if j.state = .PREPROCESSING ∨ j.state = .POSTPROCESSING then
    match job_fail cfg dbWrite j.meta j.fs j.state
        (sanityMsg j.meta.name j.state) with
    | .ok (m2, fs2, st, emails) => .ok (⟨m2, fs2, st⟩, emails)
    | .error e => .error e
  else .ok (j, [])

/-- `WebService._sanity_check` at daemon startup: run `Job._sanity_check`
on every job found in `PREPROCESSING`, then on every job found in
`POSTPROCESSING` (jobs in other states are not queried).  The database is
healthy at startup, so the row writes succeed (`dbWrite = none`). -/
def ws_sanity_check (cfg : Config) (jobs : List JobRec) : List JobRec :=
  jobs.map (fun j =>
    match job_sanity_check cfg none j with
    | .ok (j2, _) => j2
    | .error _ => j)

/-- The message text extracted from a raised exception (what
`traceback.format_exc` reports about it). -/
def errText : BackendError → String
  | .invalidState msg => msg
  | .runnerError msg => msg
  | .sanityError msg => msg
  | .configError msg => msg
  | .valueError msg => msg
  | .overflowError msg => msg
  | .typeError msg => msg

/-- `Job._set_state`: call `__internal_set_state`, routing any exception to
`Job._fail` (after which the caller continues normally, as the source
does). -/
def set_state (cfg : Config) (dbWrite : Option BackendError)
    (m : JobMetadata) (fs : Finset String) (s t : JState) :
    Except (BackendError × String)
      (JobMetadata × Finset String × JState × List Email) :=
  match internal_set_state cfg dbWrite m fs s t with
  | .ok (m2, fs2, st) => .ok (m2, fs2, st, [])
  | .error e => job_fail cfg dbWrite m fs s (errText e)

/-- Subject of the job-completed email (`Job.send_job_completed_email`). -/
def completedSubject (cfg : Config) (m : JobMetadata) : String :=
  "Sali lab " ++ cfg.service_name ++ " service: Job " ++ m.name ++ " complete"

/-- Body of the job-completed email (`Job.send_job_completed_email`). -/
def completedBody (m : JobMetadata) : String :=
  "Your job " ++ m.name ++ " has finished.\n\n" ++
    "Results can be found at " ++ m.url ++ "\n"

/-- `Job.send_user_email`: email the job owner only if `contact_email` is
set (Python truthiness: null and empty are both unset). -/
def send_user_email (m : JobMetadata) (subject body : String) : List Email :=
  match m.contact_email with
  | none => []
  | some addr => if addr = "" then [] else [⟨addr, subject, body⟩]

/-- `Job._mark_job_completed`: stamp `end_time` with the current UTC time,
derive `archive_time`/`expire_time` from the configured deltas (null when
`NEVER`), transition to `COMPLETED` (via `_set_state`, so an internal
failure is routed to `_fail`), run the `complete` hook (a no-op by
default), sync, and send the job-completed email. -/
def mark_job_completed (cfg : Config) (dbWrite : Option BackendError)
    (now : ℚ) (m : JobMetadata) (fs : Finset String) (s : JState) :
    Except (BackendError × String)
      (JobMetadata × Finset String × JState × List Email) :=
  let m1 := {m with end_time := some now,
                    archive_time := cfg.oldjobs_archive.map (fun d => now + d),
                    expire_time := cfg.oldjobs_expire.map (fun d => now + d)}
  match set_state cfg dbWrite m1 fs s .COMPLETED with
  | .error e => .error e
  | .ok (m2, fs2, st, emails) =>
    .ok (m2, fs2, st,
      emails ++ send_user_email m2 (completedSubject cfg m2) (completedBody m2))

/-- Python `s.rstrip("\r\n")`: drop trailing carriage returns and
newlines. -/
def rstripCRLF (s : String) : String :=
  String.mk (s.data.reverse.dropWhile (fun c => c = '\r' ∨ c = '\n')).reverse

/-- `Job._job_state_file_done`: the job-state file exists (`none` models an
`IOError` on open) and its content, with trailing CR/LF stripped, is
exactly `DONE`. -/
def job_state_file_done (content : Option String) : Bool :=
  match content with
  | none => false
  | some c => rstripCRLF c = "DONE"

/-- `Job._state_file_wait_time`: seconds slept between state-file retries. -/
def state_file_wait_time : ℚ := 5

/-- The `RunnerError` message raised when the runner claims the job is done
but the job-state file disagrees after all retries. -/
def runnerErrMsg (runner_id : String) (directory : Option String) : String :=
  "Runner claims job " ++ runner_id ++ " is complete, but " ++
    "job-state file in job directory (" ++ pyStrOpt directory ++
    ") claims it " ++ "is not. This usually means the underlying batch system " ++
    "(e.g. SGE) job failed - e.g. a node went down."

/-- A completion verdict together with how it was reached: how many times
the job-state file was read in total and how long was slept. -/
structure CompletionResult where
  completed : Bool
  reads : ℕ
  slept : ℚ
deriving DecidableEq, Repr

/-- The retry loop of `Job._has_completed` (`for tries in range(5)`):
re-read the job-state file, return complete if it now says `DONE`,
otherwise sleep `_state_file_wait_time` seconds; after all retries fail,
raise a `RunnerError`.  `readFile i` is the content the i-th read of the
job-state file observes (read 0 was the initial read). -/
def retry_state_file (readFile : ℕ → Option String) (runner_id : String)
    (directory : Option String) :
    ℕ → ℕ → ℚ → Except BackendError CompletionResult
  | 0, _, _ => .error (.runnerError (runnerErrMsg runner_id directory))
  | n + 1, reads, slept =>
    if job_state_file_done (readFile reads) then
      .ok ⟨true, reads + 1, slept⟩
    else
      retry_state_file readFile runner_id directory n (reads + 1)
        (slept + state_file_wait_time)

/-- `Job._has_completed`: combine the runner verdict
(`Runner._check_completed`: `some true` definitely done, `some false`
definitely still running, `none` unknown) with the job-state file.  The job
is complete when the state file says `DONE` and the runner does not report
definitely-running; when the state file disagrees with a runner that
claims completion, the state-file read is retried. -/
def has_completed (runnerDone : Option Bool)
    (readFile : ℕ → Option String) (runner_id : String)
    (directory : Option String) : Except BackendError CompletionResult :=
  let state_file_done := job_state_file_done (readFile 0)
  if state_file_done = true ∧ ¬ runnerDone = some false then
    .ok ⟨true, 1, 0⟩
  else if runnerDone = some true ∧ state_file_done = false then
    retry_state_file readFile runner_id directory 5 1 0
  else
    .ok ⟨false, 1, 0⟩

/-- A Python 2 float value: a finite value (idealized to an exact
rational), a signed infinity, or NaN. -/
inductive PyFloat where
  | finite (q : ℚ)
  | infinity (neg : Bool)
  | nan
deriving DecidableEq, Repr

/-- The whitespace characters Python `float()` strips. -/
def isPySpace (c : Char) : Bool :=
  c = ' ' ∨ c = '\t' ∨ c = '\n' ∨ c = '\r' ∨ c = '\x0b' ∨ c = '\x0c'

/-- Numeric value of a digit string (most significant first). -/
def digitsVal (ds : List Char) : ℕ :=
  ds.foldl (fun a c => a * 10 + (c.toNat - 48)) 0

/-- Parse the optional exponent part of a float literal and apply it to the
mantissa; anything left over rejects the literal. -/
def parseExp (mant : ℚ) : List Char → Option ℚ
  | [] => some mant
  | c :: rest =>
    if c = 'e' ∨ c = 'E' then
      let (sign, rest2) : ℤ × List Char :=
        match rest with
        | '+' :: r => (1, r)
        | '-' :: r => (-1, r)
        | r => (1, r)
      let ds := rest2.takeWhile Char.isDigit
      let rest3 := rest2.dropWhile Char.isDigit
      if ds = [] ∨ ¬ rest3 = [] then none
      else some (mant * (10 : ℚ) ^ (sign * (digitsVal ds : ℤ)))
    else none

/-- Parse an unsigned float literal: digits with an optional fractional
part (at least one digit overall) and an optional exponent. -/
def parseUnsignedFloat (cs : List Char) : Option ℚ :=
  let ip := cs.takeWhile Char.isDigit
  let rest1 := cs.dropWhile Char.isDigit
  match rest1 with
  | '.' :: rest2 =>
    let fp := rest2.takeWhile Char.isDigit
    let rest3 := rest2.dropWhile Char.isDigit
    if ip = [] ∧ fp = [] then none
    else parseExp ((digitsVal ip : ℚ) + (digitsVal fp : ℚ) / (10 : ℚ) ^ fp.length)
      rest3
  | _ =>
    if ip = [] then none
    else parseExp (digitsVal ip : ℚ) rest1

/-- Model of Python 2 `float()`: strip surrounding whitespace, take an
optional sign, then either a case-insensitive `inf`/`infinity`/`nan` or a
decimal literal.  `none` models the `ValueError` raised on anything
else. -/
def pyFloat (s : String) : Option PyFloat :=
  let cs := s.data.dropWhile isPySpace
  let cs := (cs.reverse.dropWhile isPySpace).reverse
  let (neg, cs2) : Bool × List Char :=
    match cs with
    | '+' :: r => (false, r)
    | '-' :: r => (true, r)
    | r => (false, r)
  let low := cs2.map Char.toLower
  if low = "inf".data ∨ low = "infinity".data then some (.infinity neg)
  else if low = "nan".data then some .nan
  else
    match parseUnsignedFloat cs2 with
    | some q => some (.finite (if neg then -q else q))
    | none => none

/-- Multiply a float by a positive constant (the unit conversions of
`Config._get_time_delta`). -/
def PyFloat.scale (x : PyFloat) (k : ℚ) : PyFloat :=
  match x with
  | .finite q => .finite (q * k)
  | .infinity neg => .infinity neg
  | .nan => .nan

/-- Modelled from the spec and the Python standard library:
`datetime.timedelta(seconds=x)`, normalized to exact seconds.  Mirrors
CPython behavior: out-of-range magnitudes (normalized days beyond
999999999) raise `OverflowError`, infinities raise `OverflowError`, and
NaN raises `ValueError`; sub-microsecond rounding is idealized away (it is
exact on every value any claim mentions). -/
def pyTimedeltaSeconds : PyFloat → Except BackendError ℚ
  | .finite q =>
    if ⌊q / 86400⌋ < -999999999 ∨ 999999999 < ⌊q / 86400⌋ then
      .error (.overflowError "normalized days too large to fit in a C int")
    else .ok q
  | .infinity _ => .error (.overflowError "cannot convert float infinity to integer")
  | .nan => .error (.valueError "cannot convert float NaN to integer")

/-- The `ValueError` message of `Config._get_time_delta` for an
unrecognized time-delta format. -/
def timeDeltaErrMsg (raw : String) : String :=
  "Time deltas must be \x27NEVER\x27 or numbers followed " ++
    "by h, d, m or y (for hours, days, months, or " ++
    "years), e.g. 24h, 30d, 3m, 1y; got " ++ raw

/-- One suffix branch of `Config._get_time_delta`: convert the prefix with
`float()` and build the timedelta with the given seconds-per-unit factor.
A `ValueError` from either step is caught by the surrounding
`except ValueError: pass` and replaced by the format error; an
`OverflowError` propagates unchanged. -/
def deltaBranch (raw : String) (unitSeconds : ℚ) :
    Except BackendError (Option ℚ) :=
  match pyFloat (raw.dropRight 1) with
  | none => .error (.valueError (timeDeltaErrMsg raw))
  | some x =>
    match pyTimedeltaSeconds (x.scale unitSeconds) with
    | .ok q => .ok (some q)
    | .error (.valueError _) => .error (.valueError (timeDeltaErrMsg raw))
    | .error e => .error e

/-- `Config._get_time_delta`: map `NEVER` (case-insensitively) to null and
`<float><unit>` to a timedelta, where the unit is `h` (hours), `d` (days),
`m` (30-day months) or `y` (365-day years); anything else raises a
`ValueError` with the format message. -/
def get_time_delta (raw : String) : Except BackendError (Option ℚ) :=
  if strEnds raw "h" then deltaBranch raw 3600
  else if strEnds raw "d" then deltaBranch raw 86400
  else if strEnds raw "m" then deltaBranch raw (30 * 86400)
  else if strEnds raw "y" then deltaBranch raw (365 * 86400)
  else if strUpper raw = "NEVER" then .ok none
  else .error (.valueError (timeDeltaErrMsg raw))

/-- The accepted time-delta format as the spec words it: `NEVER`
(case-insensitively, as the code reads it), or a float literal followed by
one of the unit suffixes `h`, `d`, `m`, `y`. -/
def specDeltaFormat (raw : String) : Prop :=
  (strUpper raw = "NEVER")
  ∨ ((strEnds raw "h" = true ∨ strEnds raw "d" = true ∨ strEnds raw "m" = true ∨ strEnds raw "y" = true)
      ∧ (pyFloat (raw.dropRight 1)).isSome = true)

instance (raw : String) : Decidable (specDeltaFormat raw) := by
  unfold specDeltaFormat; infer_instance

/-- True when a time-delta result is a raised `ValueError` or
`OverflowError`. -/
def isValueOrOverflowErr : Except BackendError (Option ℚ) → Bool
  | .error (.valueError _) => true
  | .error (.overflowError _) => true
  | _ => false

/-- True when a time-delta result is a raised `ConfigError`. -/
def isConfigErr : Except BackendError (Option ℚ) → Bool
  | .error (.configError _) => true
  | _ => false

/-- The `ConfigError` message of `Config._populate_oldjobs`, built from the
two raw configured values. -/
def oldjobsErrMsg (rawArchive rawExpire : String) : String :=
  "archive time (" ++ rawArchive ++ ") cannot be greater than " ++
    "expire time (" ++ rawExpire ++ ")"

/-- The violation test of `Config._populate_oldjobs`: the expire time is
not `NEVER` and the archive time is `NEVER` or greater than it (`NEVER`
counts as infinity). -/
def oldjobsViolation : Option ℚ → Option ℚ → Bool
  | _, none => false
  | none, some _ => true
  | some a, some e => e < a

/-- `Config._populate_oldjobs`: parse both `oldjobs` values, then reject a
configuration whose archive time exceeds its expire time with a
`ConfigError` naming both raw values. -/
def populate_oldjobs (rawArchive rawExpire : String) :
    Except BackendError (Option ℚ × Option ℚ) :=
  match get_time_delta rawArchive with
  | .error e => .error e
  | .ok archive =>
    match get_time_delta rawExpire with
    | .error e => .error e
    | .ok expire =>
      if oldjobsViolation archive expire then
        .error (.configError (oldjobsErrMsg rawArchive rawExpire))
      else .ok (archive, expire)

/-- `_PeriodicAction`: run a callback no more often than every `interval`
seconds; `last_time` is when it last ran (0 initially). -/
structure PeriodicAction where
  interval : ℚ
  last_time : ℚ
deriving DecidableEq, Repr

/-- `_PeriodicAction.get_time_to_next`: seconds until the method should be
called again, measured from the caller-supplied `timenow`. -/
def get_time_to_next (pa : PeriodicAction) (timenow : ℚ) : ℚ :=
  max 0 (pa.last_time + pa.interval - timenow)

/-- `_PeriodicAction.try_action`: call the method only if the interval has
been exceeded.  The comparison reads the wall clock (`time.time()`,
`wallClock`) — the `timenow` argument is unused by the source — and on
firing, `reset` stores a fresh wall-clock reading (`wallClockAfter`, taken
after the callback ran).  Returns whether the callback was invoked and the
updated action. -/
def try_action (pa : PeriodicAction) (timenow wallClock wallClockAfter : ℚ) :
    Bool × PeriodicAction :=
  if pa.last_time + pa.interval < wallClock then
    (true, {pa with last_time := wallClockAfter})
  else
    (false, pa)

/-- A small concrete configuration used to exercise the definitions. -/
def cfgDemo : Config where
  directories := fun st =>
    match st with
    | .INCOMING => "/inc"
    | .RUNNING => "/run"
    | .COMPLETED => "/done"
    | _ => "/pre"
  oldjobs_archive := some 604800
  oldjobs_expire := some 2592000
  admin_email := "admin@example.com"
  service_name := "modfoo"

/-- A small concrete job row used to exercise the definitions. -/
def metaDemo : JobMetadata where
  name := "j1"
  contact_email := some "user@example.com"
  url := "http://example.com/j1"
  directory := some "/inc/j1"
  end_time := none
  archive_time := none
  expire_time := none
  runner_id := some "qb3sge:42"
  failure := none

/-- A concrete configuration whose `oldjobs` times are both `NEVER`. -/
def cfgNever : Config where
  directories := fun _ => "/pre"
  oldjobs_archive := none
  oldjobs_expire := none
  admin_email := "admin@example.com"
  service_name := "modfoo"

/-- `metaDemo` after its job completed at time 42 in directory `/pre/j1`. -/
def metaDone : JobMetadata :=
  {metaDemo with directory := some "/pre/j1", end_time := some 42}

-- ------------------------------------------------------------------
-- Theorems
-- ------------------------------------------------------------------

/-- `_JobState.transition` never fails when the target is `FAILED`. -/
theorem transition_to_failed (s : JState) :
    JState.transition s .FAILED = (.FAILED, none) := by
  simp [JState.transition]

/-- `(JState.transition s t).2 = none` exactly on a legal transition. -/
theorem transition_snd_none_iff (s t : JState) :
    (JState.transition s t).2 = none ↔
      (t = .FAILED ∨ (s, t) ∈ validTransitions) := by
  unfold JState.transition
  split <;> simp_all

/-- A successful `dirStep` touches no metadata field other than
`directory`. -/
theorem dirStep_fields (cfg : Config) (m : JobMetadata) (fs : Finset String)
    (t : JState) (m2 : JobMetadata) (fs2 : Finset String)
    (h : dirStep cfg m fs t = .ok (m2, fs2)) :
    m2.name = m.name ∧ m2.contact_email = m.contact_email ∧ m2.url = m.url
    ∧ m2.end_time = m.end_time ∧ m2.archive_time = m.archive_time
    ∧ m2.expire_time = m.expire_time ∧ m2.runner_id = m.runner_id
    ∧ m2.failure = m.failure := by
  unfold dirStep at h
  split at h
  · split at h
    · simp at h
    · simp only [Except.ok.injEq, Prod.mk.injEq] at h
      obtain ⟨h1, h2⟩ := h
      subst h1
      exact ⟨rfl, rfl, rfl, rfl, rfl, rfl, rfl, rfl⟩
  · split at h
    · simp only [Except.ok.injEq, Prod.mk.injEq] at h
      obtain ⟨h1, h2⟩ := h
      subst h1
      exact ⟨rfl, rfl, rfl, rfl, rfl, rfl, rfl, rfl⟩
    · dsimp only at h
      split at h <;>
      · simp only [Except.ok.injEq, Prod.mk.injEq] at h
        obtain ⟨h1, h2⟩ := h
        subst h1
        exact ⟨rfl, rfl, rfl, rfl, rfl, rfl, rfl, rfl⟩

/-- When the target state is not `EXPIRED`, `dirStep` always succeeds. -/
theorem dirStep_ok_of_ne (cfg : Config) (m : JobMetadata) (fs : Finset String)
    (t : JState) (ht : ¬ t = .EXPIRED) :
    ∃ m2 fs2, dirStep cfg m fs t = .ok (m2, fs2) := by
  unfold dirStep
  rw [if_neg ht]
  cases m.directory with
  | none => exact ⟨m, fs, rfl⟩
  | some d =>
    dsimp only
    split
    · exact ⟨m, fs, rfl⟩
    · exact ⟨_, _, rfl⟩

/-- Inversion on a successful `__internal_set_state`: the transition was
legal, the directory step succeeded with the returned row and filesystem,
the database write succeeded, and the resulting state is the target. -/
theorem internal_set_state_ok_inv (cfg : Config) (dbW : Option BackendError)
    (m : JobMetadata) (fs : Finset String) (s t : JState) (m2 : JobMetadata)
    (fs2 : Finset String) (st : JState)
    (h : internal_set_state cfg dbW m fs s t = .ok (m2, fs2, st)) :
    st = t ∧ dbW = none ∧ (t = .FAILED ∨ (s, t) ∈ validTransitions)
    ∧ dirStep cfg m fs t = .ok (m2, fs2) := by
  unfold internal_set_state at h
  split at h
  · exact absurd h (by simp)
  case h_2 heq =>
    have hleg : (JState.transition s t).2 = none := by
      cases hx : (JState.transition s t).2 with
      | none => rfl
      | some e => rw [hx] at heq; cases heq
    split at h
    · exact absurd h (by simp)
    case h_2 m2b fs2b heq2 =>
      cases dbW with
      | some e => exact absurd h (by simp)
      | none =>
        simp only [Except.ok.injEq, Prod.mk.injEq] at h
        obtain ⟨hm, hfs, hst⟩ := h
        subst hm hfs hst
        exact ⟨rfl, rfl, (transition_snd_none_iff s t).mp hleg, heq2⟩

/-- `__internal_set_state` to `FAILED` with a healthy database always
succeeds, from every source state. -/
theorem internal_set_state_failed_ok (cfg : Config) (m : JobMetadata)
    (fs : Finset String) (s : JState) :
    ∃ m2 fs2, internal_set_state cfg none m fs s .FAILED
      = .ok (m2, fs2, .FAILED) := by
  obtain ⟨m2, fs2, hd⟩ := dirStep_ok_of_ne cfg m fs .FAILED (by simp)
  refine ⟨m2, fs2, ?_⟩
  unfold internal_set_state
  rw [transition_to_failed, hd]

/-- C1: for every pair of job states `(s, t)`, `_JobState.transition`
performs `s → t` exactly when `(s, t)` is in the legal-transition table or
`t = FAILED`; otherwise it raises an `InvalidStateError` and the held
state is unchanged. -/
theorem transition_iff_legal : ∀ s t : JState,
    ((JState.transition s t).2 = none ↔
      ((s, t) ∈ validTransitions ∨ t = .FAILED))
    ∧ ((JState.transition s t).2 = none → (JState.transition s t).1 = t)
    ∧ (¬ (JState.transition s t).2 = none →
        (JState.transition s t).1 = s
        ∧ isInvalidStateErr (JState.transition s t).2 = true) := by
  decide

/-- Witness for C1: `RUNNING → ARCHIVED` is illegal, so the held state
stays `RUNNING` and an `InvalidStateError` is raised; `ARCHIVED → EXPIRED`
is legal. -/
theorem transition_iff_legal_witness :
    ((JState.transition .RUNNING .ARCHIVED).1 = .RUNNING
      ∧ isInvalidStateErr (JState.transition .RUNNING .ARCHIVED).2 = true)
    ∧ (JState.transition .ARCHIVED .EXPIRED).1 = .EXPIRED :=
  ⟨(transition_iff_legal .RUNNING .ARCHIVED).2.2 (by decide),
   (transition_iff_legal .ARCHIVED .EXPIRED).2.1 (by decide)⟩

/-- C2: after every successful state change made through
`Job.__internal_set_state`, a non-null `directory` field equals
`normpath(join(config.directories[new state], name))`; when the target
state's configured directory differs from the current one the on-disk
directory is renamed (the old path is gone, the new one present) and the
field updated; and on a transition to `EXPIRED` the job directory is
deleted and the field cleared. -/
theorem internal_set_state_directory (cfg : Config) (dbW : Option BackendError)
    (m : JobMetadata) (fs : Finset String) (s t : JState) (m2 : JobMetadata)
    (fs2 : Finset String) (st : JState)
    (h : internal_set_state cfg dbW m fs s t = .ok (m2, fs2, st)) :
    (∀ d2, m2.directory = some d2 →
        d2 = normpath (pyJoin (cfg.directories t) m.name))
    ∧ (∀ d, m.directory = some d → ¬ t = .EXPIRED →
        ¬ normpath (pyJoin (cfg.directories t) m.name) = d →
          m2.directory = some (normpath (pyJoin (cfg.directories t) m.name))
          ∧ fs2 = insert (normpath (pyJoin (cfg.directories t) m.name))
              (fs.erase d)
          ∧ d ∉ fs2
          ∧ normpath (pyJoin (cfg.directories t) m.name) ∈ fs2)
    ∧ (t = .EXPIRED →
        m2.directory = none ∧ ∃ d, m.directory = some d ∧ fs2 = fs.erase d
          ∧ d ∉ fs2) := by
  obtain ⟨-, -, -, hd⟩ := internal_set_state_ok_inv cfg dbW m fs s t m2 fs2 st h
  unfold dirStep at hd
  by_cases ht : t = .EXPIRED
  · rw [if_pos ht] at hd
    cases hdir : m.directory with
    | none => rw [hdir] at hd; simp at hd
    | some d =>
      rw [hdir] at hd
      simp only [Except.ok.injEq, Prod.mk.injEq] at hd
      obtain ⟨h1, h2⟩ := hd
      subst h1
      refine ⟨fun d2 hd2 => by simp at hd2, fun d0 hd0 ht0 => absurd ht ht0,
        fun _ => ⟨rfl, d, rfl, h2.symm, ?_⟩⟩
      rw [← h2]
      exact Finset.not_mem_erase d fs
  · rw [if_neg ht] at hd
    cases hdir : m.directory with
    | none =>
      rw [hdir] at hd
      simp only [Except.ok.injEq, Prod.mk.injEq] at hd
      obtain ⟨h1, h2⟩ := hd
      subst h1
      refine ⟨fun d2 hd2 => ?_, fun d0 hd0 => ?_, fun he => absurd he ht⟩
      · rw [hdir] at hd2
        cases hd2
      · cases hd0
    | some d =>
      rw [hdir] at hd
      dsimp only at hd
      by_cases htg : normpath (pyJoin (cfg.directories t) m.name) = d
      · rw [if_pos htg] at hd
        simp only [Except.ok.injEq, Prod.mk.injEq] at hd
        obtain ⟨h1, h2⟩ := hd
        subst h1
        refine ⟨fun d2 hd2 => ?_, fun d0 hd0 ht0 htg0 => ?_,
          fun he => absurd he ht⟩
        · rw [hdir] at hd2
          injection hd2 with h3
          rw [← h3, htg]
        · injection hd0 with h3
          subst h3
          exact absurd htg htg0
      · rw [if_neg htg] at hd
        simp only [Except.ok.injEq, Prod.mk.injEq] at hd
        obtain ⟨h1, h2⟩ := hd
        subst h1
        refine ⟨fun d2 hd2 => ?_, fun d0 hd0 ht0 htg0 => ?_,
          fun he => absurd he ht⟩
        · simp at hd2
          exact hd2.symm
        · injection hd0 with h3
          subst h3
          refine ⟨rfl, h2.symm, ?_, ?_⟩
          · rw [← h2]
            simp only [Finset.mem_insert, Finset.mem_erase]
            rintro (hc | ⟨hc, -⟩)
            · exact htg hc.symm
            · exact hc rfl
          · rw [← h2]
            exact Finset.mem_insert_self _ _

/-- Witness for C2: moving `j1` from `INCOMING` (directory `/inc/j1`) to
`PREPROCESSING` (configured directory `/pre`) renames the directory to
`/pre/j1` and updates the field. -/
theorem internal_set_state_directory_witness :
    internal_set_state cfgDemo none metaDemo {"/inc/j1"} .INCOMING
        .PREPROCESSING
      = .ok ({metaDemo with directory := some "/pre/j1"}, {"/pre/j1"},
          .PREPROCESSING)
    ∧ ({metaDemo with directory := some "/pre/j1"} : JobMetadata).directory
        = some "/pre/j1"
    ∧ "/pre/j1" = normpath (pyJoin (cfgDemo.directories .PREPROCESSING)
        metaDemo.name) :=
  ⟨by decide, rfl,
    (internal_set_state_directory cfgDemo none metaDemo {"/inc/j1"} .INCOMING
      .PREPROCESSING {metaDemo with directory := some "/pre/j1"} {"/pre/j1"}
      .PREPROCESSING (by decide)).1 "/pre/j1" rfl⟩

/-- If every remaining retry read of the job-state file fails, the retry
loop raises the `RunnerError`. -/
theorem retry_all_fail (f : ℕ → Option String) (rid : String)
    (dir : Option String) :
    ∀ n i slept,
      (∀ k, i ≤ k → k < i + n → job_state_file_done (f k) = false) →
      retry_state_file f rid dir n i slept
        = .error (.runnerError (runnerErrMsg rid dir)) := by
  intro n
  induction n with
  | zero => intro i slept _; rfl
  | succ n ih =>
    intro i slept hall
    unfold retry_state_file
    simp only [hall i le_rfl (by omega), Bool.false_eq_true, if_false]
    exact ih (i + 1) (slept + state_file_wait_time)
      (fun k hk1 hk2 => hall k (by omega) (by omega))

/-- If the first successful retry read is in range, the retry loop returns
complete, having slept `_state_file_wait_time` seconds per preceding
failure. -/
theorem retry_first_success (f : ℕ → Option String) (rid : String)
    (dir : Option String) :
    ∀ n i slept k, i ≤ k → k < i + n →
      job_state_file_done (f k) = true →
      (∀ j, i ≤ j → j < k → job_state_file_done (f j) = false) →
      retry_state_file f rid dir n i slept
        = .ok ⟨true, k + 1,
            slept + state_file_wait_time * ((k : ℚ) - (i : ℚ))⟩ := by
  intro n
  induction n with
  | zero => intro i slept k h1 h2 _ _; omega
  | succ n ih =>
    intro i slept k hik hkn hk hprev
    unfold retry_state_file
    rcases eq_or_lt_of_le hik with rfl | hlt
    · simp only [hk, if_true]
      have : slept + state_file_wait_time * ((i : ℚ) - (i : ℚ)) = slept := by
        ring
      rw [this]
    · have hfi : job_state_file_done (f i) = false := hprev i le_rfl hlt
      simp only [hfi, Bool.false_eq_true, if_false]
      rw [ih (i + 1) (slept + state_file_wait_time) k hlt (by omega) hk
        (fun j hj1 hj2 => hprev j (by omega) hj2)]
      have : slept + state_file_wait_time
            + state_file_wait_time * ((k : ℚ) - ((i + 1 : ℕ) : ℚ))
          = slept + state_file_wait_time * ((k : ℚ) - (i : ℚ)) := by
        push_cast
        ring
      rw [this]

/-- C3: `Job._has_completed` follows the completion table: complete when
the job-state file reads `DONE` (trailing CR/LF stripped) and the runner
does not report definitely-running; not yet when the file is not `DONE`
and the runner reports running or unknown; and when the file is not
`DONE` but the runner reports done, the state-file read is retried at
most 5 times with 5-second delays, after which a `RunnerError` naming the
runner id and the job directory is raised. -/
theorem has_completed_table (runnerDone : Option Bool)
    (readFile : ℕ → Option String) (rid : String) (dir : Option String) :
    (job_state_file_done (readFile 0) = true → ¬ runnerDone = some false →
        has_completed runnerDone readFile rid dir = .ok ⟨true, 1, 0⟩)
    ∧ (job_state_file_done (readFile 0) = false →
        (runnerDone = some false ∨ runnerDone = none) →
        has_completed runnerDone readFile rid dir = .ok ⟨false, 1, 0⟩)
    ∧ (job_state_file_done (readFile 0) = false → runnerDone = some true →
        (∀ k, 1 ≤ k → k ≤ 5 → job_state_file_done (readFile k) = false) →
        has_completed runnerDone readFile rid dir
          = .error (.runnerError (runnerErrMsg rid dir)))
    ∧ (∀ k, job_state_file_done (readFile 0) = false →
        runnerDone = some true → 1 ≤ k → k ≤ 5 →
        job_state_file_done (readFile k) = true →
        (∀ j, 1 ≤ j → j < k → job_state_file_done (readFile j) = false) →
        has_completed runnerDone readFile rid dir
          = .ok ⟨true, k + 1, state_file_wait_time * ((k : ℚ) - 1)⟩)
    ∧ state_file_wait_time = 5
    ∧ (∃ u v w, runnerErrMsg rid dir
        = u ++ (rid ++ (v ++ (pyStrOpt dir ++ w)))) := by
  refine ⟨?_, ?_, ?_, ?_, rfl, ?_⟩
  · intro h0 hrd
    unfold has_completed
    rw [if_pos ⟨h0, hrd⟩]
  · intro h0 hor
    unfold has_completed
    rw [if_neg, if_neg]
    · rintro ⟨hrd, -⟩
      rcases hor with h | h <;> rw [h] at hrd <;> cases hrd
    · rintro ⟨h1, -⟩
      rw [h0] at h1
      cases h1
  · intro h0 hrd hall
    unfold has_completed
    rw [if_neg, if_pos ⟨hrd, h0⟩]
    · exact retry_all_fail readFile rid dir 5 1 0
        (fun k hk1 hk2 => hall k hk1 (by omega))
    · rintro ⟨h1, -⟩
      rw [h0] at h1
      cases h1
  · intro k h0 hrd hk1 hk5 hk hprev
    unfold has_completed
    rw [if_neg, if_pos ⟨hrd, h0⟩]
    · rw [retry_first_success readFile rid dir 5 1 0 k hk1 (by omega) hk hprev]
      have : (0 : ℚ) + state_file_wait_time * ((k : ℚ) - ((1 : ℕ) : ℚ))
          = state_file_wait_time * ((k : ℚ) - 1) := by
        push_cast
        ring
      rw [this]
    · rintro ⟨h1, -⟩
      rw [h0] at h1
      cases h1
  · refine ⟨"Runner claims job ",
      " is complete, but " ++ "job-state file in job directory (",
      ") claims it " ++ "is not. This usually means the underlying batch system "
        ++ "(e.g. SGE) job failed - e.g. a node went down.", ?_⟩
    simp only [runnerErrMsg, String.append_assoc]

/-- Witness for C3: a state file reading `DONE` plus a trailing CR/LF with
an unknown runner verdict is complete at once; a runner claiming
completion against a state file that never reads `DONE` raises the
`RunnerError`. -/
theorem has_completed_table_witness :
    has_completed none (fun _ => some "DONE\r\n") "qb3sge:42" (some "/run/j1")
      = .ok ⟨true, 1, 0⟩
    ∧ has_completed (some true) (fun _ => some "STARTED") "qb3sge:42"
        (some "/run/j1")
      = .error (.runnerError (runnerErrMsg "qb3sge:42" (some "/run/j1"))) :=
  ⟨(has_completed_table none (fun _ => some "DONE\r\n") "qb3sge:42"
      (some "/run/j1")).1 (by decide) (by decide),
   (has_completed_table (some true) (fun _ => some "STARTED") "qb3sge:42"
      (some "/run/j1")).2.2.1 (by decide) rfl (fun k h1 h2 => by decide)⟩

/-- C10: when the job-state file reads `DONE` but the runner reports the
job definitely still running, `Job._has_completed` returns `False` — the
job is not declared complete and no error is raised. -/
theorem has_completed_done_but_runner_running (readFile : ℕ → Option String)
    (rid : String) (dir : Option String)
    (h : job_state_file_done (readFile 0) = true) :
    has_completed (some false) readFile rid dir = .ok ⟨false, 1, 0⟩ := by
  unfold has_completed
  rw [if_neg, if_neg]
  · rintro ⟨h1, -⟩
    cases h1
  · rintro ⟨-, h2⟩
    exact h2 rfl

/-- Witness for C10: state file `DONE`, runner reporting still-running. -/
theorem has_completed_done_but_runner_running_witness :
    has_completed (some false) (fun _ => some "DONE") "qb3sge:42"
        (some "/run/j1") = .ok ⟨false, 1, 0⟩ :=
  has_completed_done_but_runner_running (fun _ => some "DONE") "qb3sge:42"
    (some "/run/j1") (by decide)

/-- With a healthy database, `Job._fail` always succeeds: the failure text
is recorded, the job moves to `FAILED` from any source state, and exactly
one admin email is sent. -/
theorem job_fail_none_ok (cfg : Config) (m : JobMetadata)
    (fs : Finset String) (s : JState) (tb : String) :
    ∃ m2 fs2, job_fail cfg none m fs s tb
      = .ok (m2, fs2, .FAILED,
          [⟨cfg.admin_email, failSubject cfg m,
            failBody m ("Python exception:\n" ++ tb)⟩])
      ∧ m2.failure = some ("Python exception:\n" ++ tb) := by
  obtain ⟨m2, fs2, hok⟩ := internal_set_state_failed_ok cfg
    {m with failure := some ("Python exception:\n" ++ tb)} fs s
  have hfields := dirStep_fields _ _ _ _ _ _
    (internal_set_state_ok_inv _ _ _ _ _ _ _ _ _ hok).2.2.2
  refine ⟨m2, fs2, ?_, hfields.2.2.2.2.2.2.2⟩
  unfold job_fail
  rw [hok]

/-- A `Job._fail` that returns normally leaves the job in `FAILED`. -/
theorem job_fail_ok_state (cfg : Config) (dbW : Option BackendError)
    (m : JobMetadata) (fs : Finset String) (s : JState) (tb : String)
    (m2 : JobMetadata) (fs2 : Finset String) (st : JState)
    (emails : List Email)
    (h : job_fail cfg dbW m fs s tb = .ok (m2, fs2, st, emails)) :
    st = .FAILED := by
  unfold job_fail at h
  rcases hiss : internal_set_state cfg dbW
      {m with failure := some ("Python exception:\n" ++ tb)} fs s .FAILED
    with e | ⟨m2b, fs2b, stb⟩
  · rw [hiss] at h
    cases h
  · rw [hiss] at h
    simp only [Except.ok.injEq, Prod.mk.injEq] at h
    obtain ⟨-, -, hst, -⟩ := h
    rw [← hst]
    exact (internal_set_state_ok_inv _ _ _ _ _ _ _ _ _ hiss).1

/-- C4: every job found in a transient state (`PREPROCESSING` or
`POSTPROCESSING`) at daemon startup is moved to `FAILED` by the sanity
check, and no job in either transient state survives the sweep. -/
theorem sanity_check_transient_to_failed (cfg : Config) (jobs : List JobRec) :
    (∀ j : JobRec, j.state = .PREPROCESSING ∨ j.state = .POSTPROCESSING →
      ∃ j2 emails, job_sanity_check cfg none j = .ok (j2, emails)
        ∧ j2.state = .FAILED)
    ∧ ∀ j2 ∈ ws_sanity_check cfg jobs,
        ¬ j2.state = .PREPROCESSING ∧ ¬ j2.state = .POSTPROCESSING := by
  have hjob : ∀ j : JobRec,
      j.state = .PREPROCESSING ∨ j.state = .POSTPROCESSING →
      ∃ j2 emails, job_sanity_check cfg none j = .ok (j2, emails)
        ∧ j2.state = .FAILED := by
    intro j hj
    unfold job_sanity_check
    rw [if_pos hj]
    obtain ⟨m2, fs2, hfail, -⟩ := job_fail_none_ok cfg j.meta j.fs j.state
      (sanityMsg j.meta.name j.state)
    rw [hfail]
    exact ⟨⟨m2, fs2, .FAILED⟩, _, rfl, rfl⟩
  refine ⟨hjob, ?_⟩
  intro j2 hj2
  unfold ws_sanity_check at hj2
  rw [List.mem_map] at hj2
  obtain ⟨j, hj, hmap⟩ := hj2
  by_cases hst : j.state = .PREPROCESSING ∨ j.state = .POSTPROCESSING
  · obtain ⟨j3, emails, heq, hf⟩ := hjob j hst
    rw [heq] at hmap
    rw [← hmap]
    rw [hf]
    exact ⟨by decide, by decide⟩
  · unfold job_sanity_check at hmap
    rw [if_neg hst] at hmap
    rw [← hmap]
    push_neg at hst
    exact hst

/-- Witness for C4: a `POSTPROCESSING` job is failed by the sweep. -/
theorem sanity_check_transient_to_failed_witness :
    ∃ j2 emails,
      job_sanity_check cfgDemo none ⟨metaDemo, {"/inc/j1"}, .POSTPROCESSING⟩
        = .ok (j2, emails) ∧ j2.state = .FAILED :=
  (sanity_check_transient_to_failed cfgDemo []).1
    ⟨metaDemo, {"/inc/j1"}, .POSTPROCESSING⟩ (Or.inr rfl)

/-- C5: `Job._fail` sets `metadata.failure` to the formatted traceback,
forces a transition to `FAILED` (legal from any source state), and sends
the admin email; if the failure handling itself raises, the escaping
exception is annotated with the original failure text and re-raised, and
the poisoned state file written by `WebService._handle_fatal_error` then
carries that original text. -/
theorem job_fail_spec (cfg : Config) (m : JobMetadata) (fs : Finset String)
    (s : JState) (tb : String) :
    (∃ m2 fs2, job_fail cfg none m fs s tb
        = .ok (m2, fs2, .FAILED,
            [⟨cfg.admin_email, failSubject cfg m,
              failBody m ("Python exception:\n" ++ tb)⟩])
        ∧ m2.failure = some ("Python exception:\n" ++ tb))
    ∧ (∀ e, job_fail cfg (some e) m fs s tb
        = .error (e, "Python exception:\n" ++ tb))
    ∧ (∀ errMsg, ∃ mid, handleFatalErrorStateFile errMsg
          (some ("Python exception:\n" ++ tb))
        = "FAILED: " ++ (mid ++ ("Python exception:\n" ++ tb))) := by
  refine ⟨job_fail_none_ok cfg m fs s tb, ?_, ?_⟩
  · intro e
    obtain ⟨m2, fs2, hd⟩ := dirStep_ok_of_ne cfg
      {m with failure := some ("Python exception:\n" ++ tb)} fs .FAILED
      (by simp)
    unfold job_fail internal_set_state
    rw [transition_to_failed]
    simp only [hd]
  · intro errMsg
    refine ⟨errMsg ++
      "\n\nThis error in turn occurred while trying to handle the original error below:\n",
      ?_⟩
    simp only [handleFatalErrorStateFile, String.append_assoc]

/-- Witness for C5: a database failure during `_fail` escapes annotated
with the original failure text. -/
theorem job_fail_spec_witness :
    job_fail cfgDemo (some (.configError "db down")) metaDemo {"/inc/j1"}
        .RUNNING "boom"
      = .error (.configError "db down", "Python exception:\nboom") :=
  (job_fail_spec cfgDemo metaDemo {"/inc/j1"} .RUNNING "boom").2.1
    (.configError "db down")

/-- C6: when `Job._mark_job_completed` reaches `COMPLETED`, `end_time` is
the supplied current time, `archive_time`/`expire_time` are
`end_time + config.oldjobs.{archive,expire}` (null when `NEVER`), all set
in the same call, and the user-notification email is sent exactly when
`contact_email` is set. -/
theorem mark_job_completed_spec (cfg : Config) (dbW : Option BackendError)
    (now : ℚ) (m : JobMetadata) (fs : Finset String) (s : JState)
    (m2 : JobMetadata) (fs2 : Finset String) (emails : List Email)
    (h : mark_job_completed cfg dbW now m fs s
      = .ok (m2, fs2, .COMPLETED, emails)) :
    m2.end_time = some now
    ∧ m2.archive_time = cfg.oldjobs_archive.map (fun dt => now + dt)
    ∧ m2.expire_time = cfg.oldjobs_expire.map (fun dt => now + dt)
    ∧ m2.contact_email = m.contact_email
    ∧ (pyTruthy m.contact_email = true →
        emails = [⟨pyStrOpt m.contact_email, completedSubject cfg m2,
          completedBody m2⟩])
    ∧ (pyTruthy m.contact_email = false → emails = []) := by
  simp only [mark_job_completed, set_state] at h
  rcases hiss : internal_set_state cfg dbW
      {m with end_time := some now,
              archive_time := cfg.oldjobs_archive.map (fun dt => now + dt),
              expire_time := cfg.oldjobs_expire.map (fun dt => now + dt)}
      fs s .COMPLETED
    with e | ⟨m2b, fs2b, stb⟩
  · rw [hiss] at h
    dsimp only at h
    rcases hjf : job_fail cfg dbW
        {m with end_time := some now,
                archive_time := cfg.oldjobs_archive.map (fun dt => now + dt),
                expire_time := cfg.oldjobs_expire.map (fun dt => now + dt)}
        fs s (errText e)
      with e2 | ⟨m2c, fs2c, stc, emailsc⟩
    · rw [hjf] at h
      cases h
    · rw [hjf] at h
      have hstc : stc = .FAILED := job_fail_ok_state _ _ _ _ _ _ _ _ _ _ hjf
      simp only [Except.ok.injEq, Prod.mk.injEq] at h
      obtain ⟨-, -, hst, -⟩ := h
      rw [hstc] at hst
      cases hst
  · rw [hiss] at h
    dsimp only at h
    have hinv := internal_set_state_ok_inv _ _ _ _ _ _ _ _ _ hiss
    have hfields := dirStep_fields _ _ _ _ _ _ hinv.2.2.2
    simp only [Except.ok.injEq, Prod.mk.injEq, List.nil_append] at h
    obtain ⟨hm, hfs, -, hemails⟩ := h
    subst hm hfs
    obtain ⟨-, hcontact0, -, hend, harch, hexp, -, -⟩ := hfields
    have hcontact : m2b.contact_email = m.contact_email := hcontact0
    refine ⟨hend, harch, hexp, hcontact, ?_, ?_⟩
    · intro ht
      rw [← hemails]
      unfold send_user_email
      rw [hcontact]
      cases hc : m.contact_email with
      | none => rw [hc] at ht; cases ht
      | some addr =>
        rw [hc] at ht
        have haddr : ¬ addr = "" := by
          intro hx
          unfold pyTruthy at ht
          rw [hx] at ht
          simp at ht
        dsimp only
        rw [if_neg haddr]
        rfl
    · intro hf
      rw [← hemails]
      unfold send_user_email
      rw [hcontact]
      cases hc : m.contact_email with
      | none => rfl
      | some addr =>
        rw [hc] at hf
        unfold pyTruthy at hf
        simp only [decide_eq_false_iff_not, not_not] at hf
        dsimp only
        rw [if_pos hf]

/-- Witness for C6: completing `j1` at time 42 with both `oldjobs` times
`NEVER` stamps `end_time`, leaves `archive_time`/`expire_time` null, and
emails the contact address. -/
theorem mark_job_completed_spec_witness :
    mark_job_completed cfgNever none 42 metaDemo {"/inc/j1"} .POSTPROCESSING
      = .ok (metaDone, {"/pre/j1"}, .COMPLETED,
          [⟨"user@example.com", completedSubject cfgNever metaDone,
            completedBody metaDone⟩])
    ∧ (metaDone.end_time = some 42
        ∧ metaDone.archive_time
            = cfgNever.oldjobs_archive.map (fun dt => (42 : ℚ) + dt)
        ∧ metaDone.expire_time
            = cfgNever.oldjobs_expire.map (fun dt => (42 : ℚ) + dt)
        ∧ metaDone.contact_email = metaDemo.contact_email
        ∧ (pyTruthy metaDemo.contact_email = true →
            [⟨"user@example.com", completedSubject cfgNever metaDone,
              completedBody metaDone⟩]
              = [(⟨pyStrOpt metaDemo.contact_email,
                  completedSubject cfgNever metaDone,
                  completedBody metaDone⟩ : Email)])
        ∧ (pyTruthy metaDemo.contact_email = false →
            [(⟨"user@example.com", completedSubject cfgNever metaDone,
              completedBody metaDone⟩ : Email)] = [])) :=
  ⟨by decide,
   mark_job_completed_spec cfgNever none 42 metaDemo {"/inc/j1"}
     .POSTPROCESSING metaDone {"/pre/j1"}
     [⟨"user@example.com", completedSubject cfgNever metaDone,
       completedBody metaDone⟩] (by decide)⟩

/-- A suffix branch whose prefix parses to a finite in-range float yields
that value scaled by the unit. -/
theorem deltaBranch_finite (raw : String) (u q : ℚ)
    (hp : pyFloat (raw.dropRight 1) = some (.finite q))
    (hb : ¬ (⌊q * u / 86400⌋ < -999999999 ∨ 999999999 < ⌊q * u / 86400⌋)) :
    deltaBranch raw u = .ok (some (q * u)) := by
  unfold deltaBranch
  rw [hp]
  dsimp only [PyFloat.scale]
  unfold pyTimedeltaSeconds
  dsimp only
  rw [if_neg hb]

/-- A suffix branch whose prefix does not parse as a float raises the
format `ValueError`. -/
theorem deltaBranch_unparsed (raw : String) (u : ℚ)
    (hp : pyFloat (raw.dropRight 1) = none) :
    deltaBranch raw u = .error (.valueError (timeDeltaErrMsg raw)) := by
  unfold deltaBranch
  rw [hp]

/-- A suffix branch never raises a `ConfigError`. -/
theorem deltaBranch_not_config (raw : String) (u : ℚ) :
    isConfigErr (deltaBranch raw u) = false := by
  unfold deltaBranch
  cases pyFloat (raw.dropRight 1) with
  | none => rfl
  | some x =>
    cases x with
    | finite q =>
      dsimp only [PyFloat.scale]
      unfold pyTimedeltaSeconds
      dsimp only
      by_cases hb : ⌊q * u / 86400⌋ < -999999999 ∨ 999999999 < ⌊q * u / 86400⌋
      · rw [if_pos hb]
        rfl
      · rw [if_neg hb]
        rfl
    | infinity neg => rfl
    | nan => rfl

/-- C7 counterexample: the claim says a badly formatted time delta fails
with a Config error, but `Config._get_time_delta` raises a `ValueError`
(the builtin), not a `ConfigError`. -/
theorem get_time_delta_config_error_refuted :
    get_time_delta "fortnight"
      = .error (.valueError (timeDeltaErrMsg "fortnight"))
    ∧ isConfigErr (get_time_delta "fortnight") = false := by
  constructor
  · rfl
  · rfl

/-- C7 (amended): the time-delta parser maps `1h` to 3600 seconds, `1d` to
86400 seconds, `1m` to 30 days, `1y` to 365 days and `NEVER` to null;
every input outside the accepted format fails with a `ValueError` carrying
the format message, and no input ever fails with a `ConfigError`. -/
theorem get_time_delta_spec :
    get_time_delta "1h" = .ok (some 3600)
    ∧ get_time_delta "1d" = .ok (some 86400)
    ∧ get_time_delta "1m" = .ok (some 2592000)
    ∧ get_time_delta "1y" = .ok (some 31536000)
    ∧ get_time_delta "NEVER" = .ok none
    ∧ (∀ raw, ¬ specDeltaFormat raw →
        get_time_delta raw = .error (.valueError (timeDeltaErrMsg raw)))
    ∧ (∀ raw, isConfigErr (get_time_delta raw) = false) := by
  refine ⟨?_, ?_, ?_, ?_, by decide, ?_, ?_⟩
  · have h := deltaBranch_finite "1h" 3600 1 (by decide) (by norm_num)
    unfold get_time_delta
    rw [if_pos (show strEnds "1h" "h" = true by decide), h]
    norm_num
  · have h := deltaBranch_finite "1d" 86400 1 (by decide) (by norm_num)
    unfold get_time_delta
    rw [if_neg (show ¬ strEnds "1d" "h" = true by decide),
      if_pos (show strEnds "1d" "d" = true by decide), h]
    norm_num
  · have h := deltaBranch_finite "1m" (30 * 86400) 1 (by decide) (by norm_num)
    unfold get_time_delta
    rw [if_neg (show ¬ strEnds "1m" "h" = true by decide),
      if_neg (show ¬ strEnds "1m" "d" = true by decide),
      if_pos (show strEnds "1m" "m" = true by decide), h]
    norm_num
  · have h := deltaBranch_finite "1y" (365 * 86400) 1 (by decide) (by norm_num)
    unfold get_time_delta
    rw [if_neg (show ¬ strEnds "1y" "h" = true by decide),
      if_neg (show ¬ strEnds "1y" "d" = true by decide),
      if_neg (show ¬ strEnds "1y" "m" = true by decide),
      if_pos (show strEnds "1y" "y" = true by decide), h]
    norm_num
  · intro raw hfmt
    unfold specDeltaFormat at hfmt
    push_neg at hfmt
    obtain ⟨hnev, hsuf⟩ := hfmt
    have hpf : (strEnds raw "h" = true ∨ strEnds raw "d" = true
          ∨ strEnds raw "m" = true ∨ strEnds raw "y" = true) →
        pyFloat (raw.dropRight 1) = none := by
      intro hs
      cases hx : pyFloat (raw.dropRight 1) with
      | none => rfl
      | some x =>
        exfalso
        exact hsuf hs (by rw [hx]; rfl)
    unfold get_time_delta
    by_cases hh : strEnds raw "h" = true
    · rw [if_pos hh]
      exact deltaBranch_unparsed raw 3600 (hpf (Or.inl hh))
    · rw [if_neg hh]
      by_cases hd : strEnds raw "d" = true
      · rw [if_pos hd]
        exact deltaBranch_unparsed raw 86400 (hpf (Or.inr (Or.inl hd)))
      · rw [if_neg hd]
        by_cases hm : strEnds raw "m" = true
        · rw [if_pos hm]
          exact deltaBranch_unparsed raw (30 * 86400)
            (hpf (Or.inr (Or.inr (Or.inl hm))))
        · rw [if_neg hm]
          by_cases hy : strEnds raw "y" = true
          · rw [if_pos hy]
            exact deltaBranch_unparsed raw (365 * 86400)
              (hpf (Or.inr (Or.inr (Or.inr hy))))
          · rw [if_neg hy, if_neg hnev]
  · intro raw
    unfold get_time_delta
    split
    · exact deltaBranch_not_config raw 3600
    · split
      · exact deltaBranch_not_config raw 86400
      · split
        · exact deltaBranch_not_config raw (30 * 86400)
        · split
          · exact deltaBranch_not_config raw (365 * 86400)
          · split
            · rfl
            · rfl

/-- Witness for C7: `"30 days"` is outside the accepted format and fails
with the `ValueError`. -/
theorem get_time_delta_spec_witness :
    get_time_delta "30 days"
      = .error (.valueError (timeDeltaErrMsg "30 days")) :=
  get_time_delta_spec.2.2.2.2.2.1 "30 days" (by decide)

/-- C8: with both `oldjobs` values parsed, `Config` construction fails
with a `ConfigError` naming both configured values exactly when the expire
time is finite and the archive time is `NEVER` or greater than it; every
other combination is accepted. -/
theorem populate_oldjobs_spec (rawA rawE : String) (a e : Option ℚ)
    (ha : get_time_delta rawA = .ok a) (he : get_time_delta rawE = .ok e) :
    (oldjobsViolation a e = true →
        populate_oldjobs rawA rawE
          = .error (.configError (oldjobsErrMsg rawA rawE)))
    ∧ (oldjobsViolation a e = false →
        populate_oldjobs rawA rawE = .ok (a, e))
    ∧ (oldjobsViolation a e = true ↔
        ∃ ev, e = some ev ∧ (a = none ∨ ∃ av, a = some av ∧ ev < av))
    ∧ (∃ u v w, oldjobsErrMsg rawA rawE
        = u ++ (rawA ++ (v ++ (rawE ++ w)))) := by
  refine ⟨?_, ?_, ?_, ?_⟩
  · intro hv
    unfold populate_oldjobs
    rw [ha, he]
    dsimp only
    rw [if_pos hv]
  · intro hv
    unfold populate_oldjobs
    rw [ha, he]
    dsimp only
    rw [if_neg]
    rw [hv]
    exact Bool.false_ne_true
  · cases a with
    | none =>
      cases e with
      | none => simp [oldjobsViolation]
      | some ev => simp [oldjobsViolation]
    | some av =>
      cases e with
      | none => simp [oldjobsViolation]
      | some ev => simp [oldjobsViolation]
  · refine ⟨"archive time (",
      ") cannot be greater than " ++ "expire time (", ")", ?_⟩
    simp only [oldjobsErrMsg, String.append_assoc]

/-- Witness for C8: `archive=30d, expire=7d` is rejected with the
`ConfigError` naming both values. -/
theorem populate_oldjobs_spec_witness :
    populate_oldjobs "30d" "7d"
      = .error (.configError (oldjobsErrMsg "30d" "7d")) :=
  (populate_oldjobs_spec "30d" "7d" (some 2592000) (some 604800)
      (by
        have h := deltaBranch_finite "30d" 86400 30 (by decide) (by norm_num)
        unfold get_time_delta
        rw [if_neg (show ¬ strEnds "30d" "h" = true by decide),
          if_pos (show strEnds "30d" "d" = true by decide), h]
        norm_num)
      (by
        have h := deltaBranch_finite "7d" 86400 7 (by decide) (by norm_num)
        unfold get_time_delta
        rw [if_neg (show ¬ strEnds "7d" "h" = true by decide),
          if_pos (show strEnds "7d" "d" = true by decide), h]
        norm_num)).1
    (by norm_num [oldjobsViolation])

/-- C9 counterexample: `try_action` with `last = 0`, `interval = 10`,
argument `now = 100` and a wall clock reading 5 does not invoke the
callback although `now > last + interval` — the source compares the wall
clock (`time.time()`), ignoring its `timenow` argument. -/
theorem try_action_ignores_timenow :
    ¬ (((try_action ⟨10, 0⟩ 100 5 5).1 = true) ↔ ((0 : ℚ) + 10 < 100)) := by
  norm_num [try_action]

/-- C9 (amended): `get_time_to_next(now)` is `max(0, last + interval −
now)`; `try_action` invokes the callback iff the wall-clock reading taken
during the call (not its `now` argument) exceeds `last + interval`, and
then resets `last` to the wall-clock reading taken after the callback
ran; otherwise the action is unchanged. -/
theorem periodic_action_spec (pa : PeriodicAction)
    (timenow wallClock wallClockAfter : ℚ) :
    get_time_to_next pa timenow = max 0 (pa.last_time + pa.interval - timenow)
    ∧ ((try_action pa timenow wallClock wallClockAfter).1 = true ↔
        pa.last_time + pa.interval < wallClock)
    ∧ ((try_action pa timenow wallClock wallClockAfter).1 = true →
        (try_action pa timenow wallClock wallClockAfter).2
          = {pa with last_time := wallClockAfter})
    ∧ ((try_action pa timenow wallClock wallClockAfter).1 = false →
        (try_action pa timenow wallClock wallClockAfter).2 = pa) := by
  refine ⟨rfl, ?_, ?_, ?_⟩ <;> unfold try_action <;> split <;> simp_all

/-- Witness for C9: with `last = 0`, `interval = 10` and the wall clock at
20, the callback fires and `last` becomes the post-callback reading 25. -/
theorem periodic_action_spec_witness :
    (try_action ⟨10, 0⟩ 100 20 25).1 = true
    ∧ (try_action ⟨10, 0⟩ 100 20 25).2 = ⟨10, 25⟩ :=
  ⟨((periodic_action_spec ⟨10, 0⟩ 100 20 25).2.1).mpr (by norm_num),
   (periodic_action_spec ⟨10, 0⟩ 100 20 25).2.2.1
     (((periodic_action_spec ⟨10, 0⟩ 100 20 25).2.1).mpr (by norm_num))⟩

end Saliweb
